import Mathlib

/-!
Verification of the medication_tracker Home Assistant integration.

The repository ships four source files: `coordinator.py`, `services.py`,
`calendar.py` and `const.py`.  The module `models.py` (holding
`MedicationData`, `DoseRecord`, `MedicationEntry` and the schedule /
supply-tracking methods) is referenced by the sources but is not part of
the reviewed tree, so those definitions are modelled from the
specification (sections 3, 4.1-4.4); every such definition carries a
`Modelled from the spec:` note in its doc comment.  Everything else is a
direct shallow embedding of the Python sources.

Time model: an instant is an integer number of minutes since the local
epoch (1970-01-01 00:00 local time); a calendar date is its day number
(minutes divided by 1440, floored).  Time-of-day strings such as "08:00"
are represented by their minute-of-day value (480).  The one-microsecond
subtraction used by `services.py` when building an end-of-day instant is
represented at minute granularity (last minute of the day).
-/

/-- Instants: minutes since the local epoch. -/
abbrev Time := Int

/-- Minutes in a day. -/
def minutesPerDay : Int := 1440

/-- Calendar day number of an instant (floor division). -/
def dayOf (t : Time) : Int := Int.fdiv t minutesPerDay

/-- `dt_util.start_of_local_day`: midnight of the instant's local day. -/
def start_of_local_day (t : Time) : Time := dayOf t * minutesPerDay

/-- Leap-year test of the proleptic Gregorian calendar. -/
def isLeap (y : Int) : Bool := y % 4 == 0 && (y % 100 != 0 || y % 400 == 0)

/-- Length of month `m` (1-12) in year `y`. -/
def daysInMonth (y m : Int) : Int :=
  if m == 2 then (if isLeap y then 29 else 28)
  else if m == 4 || m == 6 || m == 9 || m == 11 then 30
  else 31

/-- Gregorian civil date (year, month, day) of a day number counted from
1970-01-01 (Howard Hinnant's `civil_from_days` algorithm). -/
def civilFromDays (z0 : Int) : Int × Int × Int :=
  let z := z0 + 719468
  let era := Int.fdiv z 146097
  let doe := z - era * 146097
  let yoe := Int.fdiv (doe - Int.fdiv doe 1460 + Int.fdiv doe 36524 - Int.fdiv doe 146096) 365
  let y := yoe + era * 400
  let doy := doe - (365 * yoe + Int.fdiv yoe 4 - Int.fdiv yoe 100)
  let mp := Int.fdiv (5 * doy + 2) 153
  let d := doy - Int.fdiv (153 * mp + 2) 5 + 1
  let m := mp + (if mp < 10 then 3 else -9)
  (y + (if m <= 2 then 1 else 0), m, d)

/-- Day number (from 1970-01-01) of a Gregorian civil date
(Howard Hinnant's `days_from_civil` algorithm). -/
def daysFromCivil (y0 m d : Int) : Int :=
  let y := y0 - (if m <= 2 then 1 else 0)
  let era := Int.fdiv y 400
  let yoe := y - era * 400
  let mp := m + (if m > 2 then -3 else 9)
  let doy := Int.fdiv (153 * mp + 2) 5 + d - 1
  let doe := yoe * 365 + Int.fdiv yoe 4 - Int.fdiv yoe 100 + doy
  era * 146097 + doe - 719468

/-- Medication frequency, the closed set accepted by the service schemas
(`const.py`: daily, weekly, monthly, as_needed). -/
inductive Frequency where
  | daily
  | weekly
  | monthly
  | as_needed
deriving DecidableEq

/-- The wire string of a frequency (`const.py` FREQUENCY_* constants). -/
def Frequency.str : Frequency → String
  | .daily => "daily"
  | .weekly => "weekly"
  | .monthly => "monthly"
  | .as_needed => "as_needed"

/-- Modelled from the spec: `MedicationData` of the missing `models.py`
(spec section 3).  Time-of-day strings are carried as minute-of-day
values. -/
structure MedicationData where
  name : String
  dosage : String
  frequency : Frequency
  times : List Nat
  start_date : Option Time
  end_date : Option Time
  notes : String
  supply_tracking_enabled : Bool
  current_supply : Option Int
  pills_per_dose : Int
  refill_reminder_threshold : Int
  last_refill_date : Option Time
  show_refill_on_calendar : Bool
deriving DecidableEq

/-- Modelled from the spec: one ledger entry (`DoseRecord`, spec
section 3). -/
structure DoseRecord where
  timestamp : Time
  taken : Bool
  notes : Option String
deriving DecidableEq

/-- Medication status values (`const.py` STATE_* constants). -/
inductive MedStatus where
  | not_due
  | due
  | overdue
  | taken
  | skipped
deriving DecidableEq

/-- Modelled from the spec: the mutable aggregate `MedicationEntry`
(spec section 3) with its cached `next_due` and `status`. -/
structure MedicationEntry where
  id : String
  data : MedicationData
  dose_history : List DoseRecord
  next_due : Option Time
  status : MedStatus
deriving DecidableEq

/-- Modelled from the spec: `daily_consumption` (spec section 4.3):
pills_per_dose times doses-per-day implied by the frequency; for
as_needed the historical average taken-dose rate over the ledger, none
when the ledger holds fewer than two taken doses or no positive time
span. -/
def daily_consumption (data : MedicationData) (history : List DoseRecord) : Option ℚ :=
  match data.frequency with
  | .daily => some ((data.pills_per_dose : ℚ) * (if data.times.isEmpty then 1 else (data.times.length : ℚ)))
  | .weekly => some ((data.pills_per_dose : ℚ) * (data.times.length : ℚ) / 7)
  | .monthly => some ((data.pills_per_dose : ℚ) * (data.times.length : ℚ) / 30)
  | .as_needed =>
    let takenRecs := history.filter (fun r => r.taken)
    match takenRecs.head?, takenRecs.getLast? with
    | some r0, some r1 =>
      if r0.timestamp < r1.timestamp && 2 <= takenRecs.length then
        some ((data.pills_per_dose : ℚ) * (takenRecs.length : ℚ) * (minutesPerDay : ℚ)
          / ((r1.timestamp - r0.timestamp : Int) : ℚ))
      else none
    | _, _ => none

/-- Modelled from the spec: `days_of_supply_remaining` (spec section
4.3): current_supply divided by daily consumption, none when either is
absent or consumption is zero. -/
def days_of_supply_remaining (e : MedicationEntry) : Option ℚ :=
  match e.data.current_supply, daily_consumption e.data e.dose_history with
  | some c, some dc => if dc = 0 then none else some ((c : ℚ) / dc)
  | _, _ => none

/-- Modelled from the spec: `estimated_refill_date` (spec section 4.3):
today plus days-of-supply-remaining rounded down to whole days, as a day
number. -/
def estimated_refill_date (e : MedicationEntry) (today : Int) : Option Int :=
  (days_of_supply_remaining e).map (fun d => today + Rat.floor d)

/-- Modelled from the spec: `is_low_supply` (spec section 4.3): supply
tracking enabled, current_supply present, and days of supply remaining
at most the refill reminder threshold. -/
def is_low_supply (e : MedicationEntry) : Bool :=
  e.data.supply_tracking_enabled && e.data.current_supply.isSome &&
    (match days_of_supply_remaining e with
     | some d => decide (d <= (e.data.refill_reminder_threshold : ℚ))
     | none => false)

/-- Modelled from the spec: `decrement(pills_per_dose)` (spec section
4.3): clamp at zero; a no-op when supply tracking is disabled or
current_supply is absent. -/
def decrement_supply (e : MedicationEntry) : MedicationEntry :=
  if e.data.supply_tracking_enabled then
    match e.data.current_supply with
    | some c =>
      { e with data := { e.data with current_supply := some (max 0 (c - e.data.pills_per_dose)) } }
    | none => e
  else e

/-- Least element of a list of instants that is at least `ref`. -/
def leastGE (ref : Time) (l : List Time) : Option Time :=
  (l.filter (fun t => decide (ref <= t))).foldl
    (fun acc t => match acc with
      | none => some t
      | some a => some (min a t)) none

/-- Greatest element of a list of instants that is at most `ref`. -/
def greatestLE (ref : Time) (l : List Time) : Option Time :=
  (l.filter (fun t => decide (t <= ref))).foldl
    (fun acc t => match acc with
      | none => some t
      | some a => some (max a t)) none

/-- Occurrence instants of the schedule on candidate days around the
reference instant: for daily the reference day and the next, for weekly
the next two anchor-aligned days, for monthly the clamped day-of-month
in the reference month and the next (spec section 4.1).  as_needed has
no occurrences. -/
def occurrenceCandidates (data : MedicationData) (refT : Time) : List Time :=
  let onDays (days : List Int) : List Time :=
    days.flatMap (fun day => data.times.map (fun tod => day * minutesPerDay + (tod : Int)))
  match data.frequency with
  | .as_needed => []
  | .daily =>
    let d := dayOf refT
    onDays [d - 1, d, d + 1]
  | .weekly =>
    let anchor := dayOf (data.start_date.getD refT)
    let d := dayOf refT
    let d0 := d + Int.emod (anchor - d) 7
    onDays [d0 - 14, d0 - 7, d0, d0 + 7]
  | .monthly =>
    let anchorDom := (civilFromDays (dayOf (data.start_date.getD refT))).2.2
    let ym := civilFromDays (dayOf refT)
    let y := ym.1
    let m := ym.2.1
    let prevY := if m == 1 then y - 1 else y
    let prevM := if m == 1 then 12 else m - 1
    let nextY := if m == 12 then y + 1 else y
    let nextM := if m == 12 then 1 else m + 1
    let dayIn (yy mm : Int) : Int := daysFromCivil yy mm (min anchorDom (daysInMonth yy mm))
    onDays [dayIn prevY prevM, dayIn y m, dayIn nextY nextM]

/-- Modelled from the spec: `compute_next_due` (spec section 4.1):
earliest occurrence at or after `now` (and after `start_date`), none for
as_needed or empty times, none when `now` or the computed occurrence is
past `end_date`. -/
def compute_next_due (data : MedicationData) (now : Time) : Option Time :=
  if (match data.end_date with | some ed => decide (ed < now) | none => false) then none
  else
    let refT := max now (data.start_date.getD now)
    match leastGE refT (occurrenceCandidates data refT) with
    | none => none
    | some c =>
      match data.end_date with
      | some ed => if decide (ed < c) then none else some c
      | none => some c

/-- Modelled from the spec: the most recent due instant at or before
`now` (spec section 4.4 step 3), none before the window opens. -/
def most_recent_due (data : MedicationData) (now : Time) : Option Time :=
  if (match data.start_date with | some sd => decide (now < sd) | none => false) then none
  else
    greatestLE now ((occurrenceCandidates data now).filter
      (fun t => match data.start_date with
        | some sd => decide (sd <= t)
        | none => true))

/-- Modelled from the spec: grace period separating `due` from
`overdue`, fixed at two hours to match the spec's section 8 scenario. -/
def gracePeriod : Int := 120

/-- Modelled from the spec: the "implementation-defined short window"
(spec section 4.4 step 2) during which a logged dose is still reflected
for unscheduled medications, fixed at one hour. -/
def recentWindow : Int := 60

/-- Modelled from the spec: `update_status(now)` (spec section 4.4):
recompute `next_due` from the data, then derive the status from the
most recent due instant, the ledger and the grace period. -/
def update_status (now : Time) (e : MedicationEntry) : MedicationEntry :=
  let nd := compute_next_due e.data now
  let status :=
    match nd with
    | none =>
      match e.dose_history.getLast? with
      | some r =>
        if decide (0 <= now - r.timestamp) && decide (now - r.timestamp <= recentWindow) then
          (if r.taken then MedStatus.taken else MedStatus.skipped)
        else MedStatus.not_due
      | none => MedStatus.not_due
    | some nextd =>
      match most_recent_due e.data now with
      | none => MedStatus.not_due
      | some prevd =>
        match (e.dose_history.filter
            (fun r => decide (prevd <= r.timestamp) && decide (r.timestamp < nextd))).getLast? with
        | some r => if r.taken then MedStatus.taken else MedStatus.skipped
        | none => if decide (now < prevd + gracePeriod) then MedStatus.due else MedStatus.overdue
  { e with next_due := nd, status := status }

/-- Modelled from the spec: `reset_schedule` (spec section 4.4 step 7):
discard the cached next-due value. -/
def reset_schedule (e : MedicationEntry) : MedicationEntry :=
  { e with next_due := none }

/-- Modelled from the spec: `record_dose_taken(at)` (spec section 4.4):
append a taken DoseRecord and recompute the status. -/
def record_dose_taken (at_ : Time) (e : MedicationEntry) : MedicationEntry :=
  update_status at_ { e with dose_history := e.dose_history ++ [⟨at_, true, none⟩] }

/-- Modelled from the spec: `record_dose_skipped(at)` (spec section
4.4): append a skipped DoseRecord and recompute the status. -/
def record_dose_skipped (at_ : Time) (e : MedicationEntry) : MedicationEntry :=
  update_status at_ { e with dose_history := e.dose_history ++ [⟨at_, false, none⟩] }

/-- The coordinator's registry `self._medications`: an insertion-ordered
mapping from medication id to entry (Python dict semantics). -/
abbrev Registry := List (String × MedicationEntry)

/-- Dictionary lookup `self._medications.get(medication_id)`. -/
def findMed : Registry → String → Option MedicationEntry
  | [], _ => none
  | (k, m) :: rest, i => if k = i then some m else findMed rest i

/-- Dictionary assignment `self._medications[id] = medication`:
replace in place when the key exists, append otherwise. -/
def setMed : Registry → String → MedicationEntry → Registry
  | [], i, m => [(i, m)]
  | (k, m0) :: rest, i, m =>
    if k = i then (i, m) :: rest else (k, m0) :: setMed rest i m

/-- Dictionary deletion `del self._medications[id]`. -/
def delMed (reg : Registry) (i : String) : Registry :=
  reg.filter (fun p => decide (p.1 ≠ i))

/-- Result of a coordinator operation: the returned boolean, the
registry afterwards, and the number of low-supply events fired
(`EVENT_MEDICATION_LOW_SUPPLY`). -/
structure OpResult where
  ok : Bool
  medications : Registry
  low_supply_events : Nat
deriving DecidableEq

/-- `MedicationCoordinator.async_add_medication` (coordinator.py lines
93-116): default the start date to the start of the current local day
when absent, create the entry under a freshly generated id (the uuid4
value is passed in as `fresh_id`), store it, and return the id.  The
fresh entry's ledger, cache and status come from the spec's section 3
lifecycle (empty history, nothing cached, not yet due). -/
def async_add_medication (reg : Registry) (fresh_id : String)
    (medication_data : MedicationData) (now : Time) : String × Registry :=
  let medication_data :=
    match medication_data.start_date with
    | none => { medication_data with start_date := some (start_of_local_day now) }
    | some _ => medication_data
  let medication : MedicationEntry :=
    { id := fresh_id
      data := medication_data
      dose_history := []
      next_due := none
      status := MedStatus.not_due }
  (fresh_id, setMed reg fresh_id medication)

/-- `MedicationCoordinator.async_remove_medication` (coordinator.py
lines 118-131). -/
def async_remove_medication (reg : Registry) (medication_id : String) : OpResult :=
  match findMed reg medication_id with
  | some _ => ⟨true, delMed reg medication_id, 0⟩
  | none => ⟨false, reg, 0⟩

/-- `MedicationCoordinator.async_update_medication` (coordinator.py
lines 133-154): replace the data wholesale, reset the schedule, rerun
`update_status`. -/
def async_update_medication (reg : Registry) (medication_id : String)
    (medication_data : MedicationData) (now : Time) : OpResult :=
  match findMed reg medication_id with
  | none => ⟨false, reg, 0⟩
  | some medication =>
    let medication := { medication with data := medication_data }
    let medication := reset_schedule medication
    let medication := update_status now medication
    ⟨true, setMed reg medication_id medication, 0⟩

/-- `MedicationCoordinator.async_take_medication` (coordinator.py lines
205-231): record the dose, auto-decrement the supply when tracking is
enabled, and fire a low-supply event exactly when the supply was not low
before and is low afterwards. -/
def async_take_medication (reg : Registry) (medication_id : String)
    (taken_at : Option Time) (now : Time) : OpResult :=
  match findMed reg medication_id with
  | none => ⟨false, reg, 0⟩
  | some medication =>
    let t := taken_at.getD now
    let was_low_supply := is_low_supply medication
    let medication := record_dose_taken t medication
    if medication.data.supply_tracking_enabled then
      let medication := decrement_supply medication
      let fired := if !was_low_supply && is_low_supply medication then 1 else 0
      ⟨true, setMed reg medication_id medication, fired⟩
    else
      ⟨true, setMed reg medication_id medication, 0⟩

/-- `MedicationCoordinator.async_skip_medication` (coordinator.py lines
233-247). -/
def async_skip_medication (reg : Registry) (medication_id : String)
    (skipped_at : Option Time) (now : Time) : OpResult :=
  match findMed reg medication_id with
  | none => ⟨false, reg, 0⟩
  | some medication =>
    let t := skipped_at.getD now
    let medication := record_dose_skipped t medication
    ⟨true, setMed reg medication_id medication, 0⟩

/-- `MedicationCoordinator.async_refill_medication` (coordinator.py
lines 284-318): reject unknown ids and disabled supply tracking; add to
the current supply (a missing or zero value reads as 0 through Python's
`or`), and stamp the refill date (defaulting to now through `or`). -/
def async_refill_medication (reg : Registry) (medication_id : String)
    (refill_amount : Int) (refill_date : Option Time) (now : Time) : OpResult :=
  match findMed reg medication_id with
  | none => ⟨false, reg, 0⟩
  | some medication =>
    if !medication.data.supply_tracking_enabled then ⟨false, reg, 0⟩
    else
      let current := medication.data.current_supply.getD 0
      let medication := { medication with data :=
        { medication.data with
            current_supply := some (current + refill_amount)
            last_refill_date := some (refill_date.getD now) } }
      ⟨true, setMed reg medication_id medication, 0⟩

/-- `MedicationCoordinator.async_update_supply` (coordinator.py lines
320-350): reject unknown ids and disabled supply tracking; otherwise
overwrite the supply and fire a low-supply event exactly when the
supply was not low before and is low afterwards. -/
def async_update_supply (reg : Registry) (medication_id : String)
    (new_supply : Int) : OpResult :=
  match findMed reg medication_id with
  | none => ⟨false, reg, 0⟩
  | some medication =>
    if !medication.data.supply_tracking_enabled then ⟨false, reg, 0⟩
    else
      let was_low_supply := is_low_supply medication
      let medication := { medication with data :=
        { medication.data with current_supply := some new_supply } }
      let fired := if !was_low_supply && is_low_supply medication then 1 else 0
      ⟨true, setMed reg medication_id medication, fired⟩

/-- The optional fields of an `update_medication` service call
(`UPDATE_MEDICATION_SCHEMA`, services.py lines 94-118): every field is
optional except the id; `start_date`/`end_date` arrive as calendar
dates (day numbers), supplies as validated non-negative integers. -/
structure UpdateMedicationCall where
  name : Option String
  dosage : Option String
  frequency : Option Frequency
  times : Option (List Nat)
  start_date : Option Int
  end_date : Option Int
  notes : Option String
  supply_tracking_enabled : Option Bool
  current_supply : Option Int
  pills_per_dose : Option Int
  refill_reminder_threshold : Option Int
  show_refill_on_calendar : Option Bool
deriving DecidableEq

/-- `handle_update_medication` (services.py lines 234-299), the part
that builds the replacement `MedicationData`: every provided field
overrides the current value, absent fields carry over, a provided
start date becomes the start of that local day, a provided end date the
end of that local day, and `last_refill_date` is always carried over
from the current data (the schema has no such field). -/
def handle_update_medication_data (call : UpdateMedicationCall)
    (current_medication : MedicationEntry) : MedicationData :=
  let start_date :=
    match call.start_date with
    | some d => some (d * minutesPerDay)
    | none => current_medication.data.start_date
  let end_date :=
    match call.end_date with
    | some d => some (d * minutesPerDay + (minutesPerDay - 1))
    | none => current_medication.data.end_date
  { name := call.name.getD current_medication.data.name
    dosage := call.dosage.getD current_medication.data.dosage
    frequency := call.frequency.getD current_medication.data.frequency
    times := call.times.getD current_medication.data.times
    start_date := start_date
    end_date := end_date
    notes := call.notes.getD current_medication.data.notes
    supply_tracking_enabled :=
      call.supply_tracking_enabled.getD current_medication.data.supply_tracking_enabled
    current_supply :=
      match call.current_supply with
      | some c => some c
      | none => current_medication.data.current_supply
    pills_per_dose := call.pills_per_dose.getD current_medication.data.pills_per_dose
    refill_reminder_threshold :=
      call.refill_reminder_threshold.getD current_medication.data.refill_reminder_threshold
    last_refill_date := current_medication.data.last_refill_date
    show_refill_on_calendar :=
      call.show_refill_on_calendar.getD current_medication.data.show_refill_on_calendar }

/-- A calendar event (`homeassistant.components.calendar.CalendarEvent`)
as built by calendar.py. -/
structure CalendarEvent where
  start : Time
  end_ : Time
  summary : String
  description : String
  uid : String
deriving DecidableEq

/-- Two-digit zero-padded decimal rendering. -/
def pad2 (n : Int) : String :=
  if n < 10 then "0" ++ toString n else toString n

/-- `strftime('%I:%M %p')`: 12-hour clock rendering of an instant's
time of day. -/
def clock12 (t : Time) : String :=
  let m := Int.emod t minutesPerDay
  let h24 := Int.fdiv m 60
  let mins := Int.emod m 60
  let h12 := if Int.emod h24 12 == 0 then 12 else Int.emod h24 12
  pad2 h12 ++ ":" ++ pad2 mins ++ " " ++ (if h24 < 12 then "AM" else "PM")

/-- `date.isoformat()`: YYYY-MM-DD rendering of a day number. -/
def isoOfDate (day : Int) : String :=
  let c := civilFromDays day
  toString c.1 ++ "-" ++ pad2 c.2.1 ++ "-" ++ pad2 c.2.2

/-- `datetime.isoformat()` at the model's minute granularity. -/
def isoOfTime (t : Time) : String :=
  let m := Int.emod t minutesPerDay
  isoOfDate (dayOf t) ++ "T" ++ pad2 (Int.fdiv m 60) ++ ":" ++ pad2 (Int.emod m 60) ++ ":00"

/-- Printf `%.1f`-style one-decimal rendering of a rational. -/
def formatOneDecimal (q : ℚ) : String :=
  let n : Int := round (q * 10)
  let a := if n < 0 then -n else n
  (if n < 0 then "-" else "") ++ toString (Int.fdiv a 10) ++ "." ++ toString (Int.emod a 10)

/-- `MedicationTrackerCalendar._create_event_summary`
(calendar.py lines 109-112). -/
def create_event_summary (medication : MedicationEntry) (dose_record : DoseRecord) : String :=
  (if dose_record.taken then "✅ Taken" else "❌ Skipped") ++ ": "
    ++ medication.data.name ++ " (" ++ medication.data.dosage ++ ")"

/-- `MedicationTrackerCalendar._create_event_description`
(calendar.py lines 114-130): the notes line appears only for a present,
non-empty note (Python truthiness); the frequency line always appears
since every frequency string is non-empty. -/
def create_event_description (medication : MedicationEntry) (dose_record : DoseRecord) : String :=
  let base :=
    ["Medication: " ++ medication.data.name,
     "Dosage: " ++ medication.data.dosage,
     "Status: " ++ (if dose_record.taken then "Taken" else "Skipped"),
     "Time: " ++ clock12 dose_record.timestamp]
  let withNotes :=
    match dose_record.notes with
    | some s => if s = "" then base else base ++ ["Notes: " ++ s]
    | none => base
  String.intercalate "\n"
    (withNotes ++ ["Frequency: " ++ medication.data.frequency.str])

/-- `MedicationTrackerCalendar._create_refill_event_description`
(calendar.py lines 132-154); an absent supply prints as Python's
`None`, and the daily-consumption line is skipped for a missing or zero
value (float truthiness). -/
def create_refill_event_description (medication : MedicationEntry) : String :=
  let supplyStr :=
    match medication.data.current_supply with
    | some c => toString c
    | none => "None"
  let base :=
    ["Medication: " ++ medication.data.name,
     "Current Supply: " ++ supplyStr ++ " units"]
  let withDc :=
    match daily_consumption medication.data medication.dose_history with
    | some q => if q = 0 then base else base ++ ["Daily Consumption: " ++ formatOneDecimal q ++ " units/day"]
    | none => base
  let withDays :=
    match days_of_supply_remaining medication with
    | some d => withDc ++ ["Days Remaining: " ++ formatOneDecimal d]
    | none => withDc
  let withRefill :=
    match medication.data.last_refill_date with
    | some t => withDays ++ ["Last Refill: " ++ isoOfTime t]
    | none => withDays
  String.intercalate "\n" withRefill

/-- The dose event built in the loop of `async_get_events`
(calendar.py lines 77-84). -/
def mkDoseEvent (medication_id : String) (medication : MedicationEntry)
    (dose_record : DoseRecord) : CalendarEvent :=
  { start := dose_record.timestamp
    end_ := dose_record.timestamp + 5
    summary := create_event_summary medication dose_record
    description := create_event_description medication dose_record
    uid := "medication_tracker_" ++ medication_id ++ "_" ++ isoOfTime dose_record.timestamp }

/-- The synthetic refill event built in `async_get_events`
(calendar.py lines 93-104): 09:00 on the estimated refill day, one hour
long. -/
def mkRefillEvent (medication_id : String) (medication : MedicationEntry)
    (refill_day : Int) : CalendarEvent :=
  let startT := refill_day * minutesPerDay + 540
  { start := startT
    end_ := startT + 60
    summary := "💊 Refill Needed: " ++ medication.data.name
    description := create_refill_event_description medication
    uid := "medication_tracker_" ++ medication_id ++ "_refill_" ++ isoOfDate refill_day }

/-- The per-medication body of the `async_get_events` loop
(calendar.py lines 65-104): dose events for the records whose calendar
date falls between the range endpoints' dates, then — when supply
tracking and the calendar flag are both enabled and the estimated
refill date falls in the same date range — one refill event. -/
def medicationEvents (start_date end_date : Time) (today : Int)
    (p : String × MedicationEntry) : List CalendarEvent :=
  let doseEvents :=
    (p.2.dose_history.filter
        (fun r => decide (dayOf start_date <= dayOf r.timestamp)
          && decide (dayOf r.timestamp <= dayOf end_date))).map
      (mkDoseEvent p.1 p.2)
  let refillEvents :=
    if p.2.data.supply_tracking_enabled && p.2.data.show_refill_on_calendar then
      match estimated_refill_date p.2 today with
      | some rd =>
        if decide (dayOf start_date <= rd) && decide (rd <= dayOf end_date) then
          [mkRefillEvent p.1 p.2 rd]
        else []
      | none => []
    else []
  doseEvents ++ refillEvents

/-- The relation `events.sort(key=lambda x: x.start)` sorts by:
comparison of start times. -/
def startLE (a b : CalendarEvent) : Prop := a.start <= b.start

instance : DecidableRel startLE := fun a b => inferInstanceAs (Decidable (a.start <= b.start))

instance : IsTotal CalendarEvent startLE := ⟨fun a b => le_total a.start b.start⟩

instance : IsTrans CalendarEvent startLE := ⟨fun _ _ _ h1 h2 => le_trans h1 h2⟩

/-- `MedicationTrackerCalendar.async_get_events` (calendar.py lines
54-107): accumulate each medication's events in registry order, then
stable-sort ascending by start time (Python's `list.sort` with a key,
modelled by a stable insertion sort). -/
def async_get_events (reg : Registry) (start_date end_date : Time)
    (today : Int) : List CalendarEvent :=
  List.insertionSort startLE
    (reg.foldl (fun acc p => acc ++ medicationEvents start_date end_date today p) [])

/-! ## Registry and state-machine helper lemmas -/

theorem findMed_setMed_self (reg : Registry) (i : String) (m : MedicationEntry) :
    findMed (setMed reg i m) i = some m := by
  induction reg with
  | nil => simp [setMed, findMed]
  | cons p rest ih =>
    by_cases h : p.1 = i
    · simp [setMed, h, findMed]
    · simp [setMed, h, findMed, ih]

theorem findMed_setMed_ne (reg : Registry) (i k : String) (m : MedicationEntry)
    (hk : k ≠ i) : findMed (setMed reg i m) k = findMed reg k := by
  induction reg with
  | nil => simp [setMed, findMed, Ne.symm hk]
  | cons p rest ih =>
    by_cases h : p.1 = i
    · simp [setMed, h, findMed, Ne.symm hk]
    · simp [setMed, h, findMed, ih]

theorem setMed_length (reg : Registry) (i : String) (m : MedicationEntry)
    (h : findMed reg i = none) : (setMed reg i m).length = reg.length + 1 := by
  induction reg with
  | nil => simp [setMed]
  | cons p rest ih =>
    by_cases hp : p.1 = i
    · simp [findMed, hp] at h
    · simp [findMed, hp] at h
      simp [setMed, hp, ih h]

theorem update_status_data (now : Time) (e : MedicationEntry) :
    (update_status now e).data = e.data := rfl

theorem update_status_dose_history (now : Time) (e : MedicationEntry) :
    (update_status now e).dose_history = e.dose_history := rfl

theorem update_status_next_due (now : Time) (e : MedicationEntry) :
    (update_status now e).next_due = compute_next_due e.data now := rfl

theorem record_dose_taken_data (t : Time) (e : MedicationEntry) :
    (record_dose_taken t e).data = e.data := rfl

theorem record_dose_skipped_data (t : Time) (e : MedicationEntry) :
    (record_dose_skipped t e).data = e.data := rfl

/-! ## Example fixtures used by the concrete witnesses -/

/-- A daily one-pill medication with supply tracking enabled,
8 units on hand and a 7-day reminder threshold. -/
def exData : MedicationData :=
  { name := "Aspirin", dosage := "100mg", frequency := Frequency.daily, times := [480]
    start_date := none, end_date := none, notes := ""
    supply_tracking_enabled := true, current_supply := some 8
    pills_per_dose := 1, refill_reminder_threshold := 7
    last_refill_date := none, show_refill_on_calendar := false }

/-- Entry for `exData` under id "m1". -/
def exMed : MedicationEntry :=
  { id := "m1", data := exData, dose_history := [], next_due := none
    status := MedStatus.not_due }

/-- The same medication with supply tracking disabled. -/
def exMedOff : MedicationEntry :=
  { exMed with id := "m2", data := { exData with supply_tracking_enabled := false } }

/-- A two-entry registry holding `exMed` and `exMedOff`. -/
def exReg : Registry := [("m1", exMed), ("m2", exMedOff)]

/-! ## Claim theorems -/

/-- C9: the `update_medication` service never changes
`last_refill_date`: the replacement `MedicationData` built by
`handle_update_medication` carries over the existing value for every
combination of optional fields. -/
theorem c9_update_service_preserves_last_refill_date
    (call : UpdateMedicationCall) (current_medication : MedicationEntry) :
    (handle_update_medication_data call current_medication).last_refill_date
      = current_medication.data.last_refill_date := rfl

/-- C2: for a registered medication with supply tracking enabled,
refill adds the amount to the current supply, stamps the given refill
date and returns true; for an unknown id or disabled tracking it
returns false and leaves the registry untouched. -/
theorem c2_refill_adds_amount (reg : Registry) (i : String) (amt : Int) (d now : Time)
    (med : MedicationEntry) (c : Int)
    (h : findMed reg i = some med)
    (hen : med.data.supply_tracking_enabled = true)
    (hc : med.data.current_supply = some c) :
    (async_refill_medication reg i amt (some d) now).ok = true ∧
    findMed (async_refill_medication reg i amt (some d) now).medications i
      = some { med with data := { med.data with current_supply := some (c + amt), last_refill_date := some d } } ∧
    (∀ j, findMed reg j = none →
      async_refill_medication reg j amt (some d) now = ⟨false, reg, 0⟩) ∧
    (∀ j m2, findMed reg j = some m2 → m2.data.supply_tracking_enabled = false →
      async_refill_medication reg j amt (some d) now = ⟨false, reg, 0⟩) := by
  refine ⟨?_, ?_, ?_, ?_⟩
  · simp [async_refill_medication, h, hen]
  · simp [async_refill_medication, h, hen, hc, findMed_setMed_self]
  · intro j hj
    simp [async_refill_medication, hj]
  · intro j m2 hj hoff
    simp [async_refill_medication, hj, hoff]

/-- Witness for C2 at a concrete input: refilling 30 units on a supply
of 8 yields 38 and stamps the refill date. -/
theorem c2_witness :
    findMed exReg "m1" = some exMed ∧
    exMed.data.supply_tracking_enabled = true ∧
    exMed.data.current_supply = some 8 ∧
    ((async_refill_medication exReg "m1" 30 (some 100) 0).ok = true ∧
     findMed (async_refill_medication exReg "m1" 30 (some 100) 0).medications "m1"
       = some { exMed with data := { exMed.data with current_supply := some (8 + 30), last_refill_date := some 100 } } ∧
     (∀ j, findMed exReg j = none →
       async_refill_medication exReg j 30 (some 100) 0 = ⟨false, exReg, 0⟩) ∧
     (∀ j m2, findMed exReg j = some m2 → m2.data.supply_tracking_enabled = false →
       async_refill_medication exReg j 30 (some 100) 0 = ⟨false, exReg, 0⟩)) :=
  ⟨rfl, rfl, rfl, c2_refill_adds_amount exReg "m1" 30 100 0 exMed 8 rfl rfl rfl⟩

/-- C10: refilling a tracked medication whose supply is absent or zero
yields a supply of exactly the amount, and an absent date argument
stamps the current time. -/
theorem c10_refill_from_empty (reg : Registry) (i : String) (amt : Int) (now : Time)
    (med : MedicationEntry)
    (h : findMed reg i = some med)
    (hen : med.data.supply_tracking_enabled = true)
    (hc : med.data.current_supply = none ∨ med.data.current_supply = some 0) :
    (async_refill_medication reg i amt none now).ok = true ∧
    findMed (async_refill_medication reg i amt none now).medications i
      = some { med with data := { med.data with current_supply := some amt, last_refill_date := some now } } := by
  rcases hc with hc | hc <;>
    exact ⟨by simp [async_refill_medication, h, hen],
           by simp [async_refill_medication, h, hen, hc, findMed_setMed_self]⟩

/-- Witness for C10 at a concrete input: a zero supply refilled with 30
becomes exactly 30, dated now. -/
theorem c10_witness :
    findMed [("m1", { exMed with data := { exData with current_supply := some 0 } })] "m1"
      = some { exMed with data := { exData with current_supply := some 0 } } ∧
    ({ exMed with data := { exData with current_supply := some 0 } } :
        MedicationEntry).data.supply_tracking_enabled = true ∧
    (({ exMed with data := { exData with current_supply := some 0 } } :
        MedicationEntry).data.current_supply = none ∨
     ({ exMed with data := { exData with current_supply := some 0 } } :
        MedicationEntry).data.current_supply = some 0) ∧
    ((async_refill_medication
        [("m1", { exMed with data := { exData with current_supply := some 0 } })]
        "m1" 30 none 7).ok = true ∧
     findMed (async_refill_medication
        [("m1", { exMed with data := { exData with current_supply := some 0 } })]
        "m1" 30 none 7).medications "m1"
       = some { { exMed with data := { exData with current_supply := some 0 } } with data := { ({ exMed with data := { exData with current_supply := some 0 } } : MedicationEntry).data with current_supply := some 30, last_refill_date := some 7 } }) :=
  ⟨rfl, rfl, Or.inr rfl,
   c10_refill_from_empty _ "m1" 30 7 _ rfl rfl (Or.inr rfl)⟩

/-- C4: `update_supply` on a medication with tracking disabled fails
and changes nothing; with tracking enabled it overwrites the supply
with exactly the given value and returns true. -/
theorem c4_update_supply_precondition (reg : Registry) (i : String) (v : Int)
    (med : MedicationEntry) (h : findMed reg i = some med) :
    (med.data.supply_tracking_enabled = false →
      async_update_supply reg i v = ⟨false, reg, 0⟩) ∧
    (med.data.supply_tracking_enabled = true →
      (async_update_supply reg i v).ok = true ∧
      findMed (async_update_supply reg i v).medications i
        = some { med with data := { med.data with current_supply := some v } }) := by
  constructor
  · intro hoff
    simp [async_update_supply, h, hoff]
  · intro hen
    exact ⟨by simp [async_update_supply, h, hen],
           by simp [async_update_supply, h, hen, findMed_setMed_self]⟩

/-- Witness for C4 at a concrete input: the disabled entry "m2" rejects
the update, the enabled entry "m1" takes the exact value. -/
theorem c4_witness :
    (findMed exReg "m2" = some exMedOff ∧
     (exMedOff.data.supply_tracking_enabled = false →
       async_update_supply exReg "m2" 3 = ⟨false, exReg, 0⟩)) ∧
    (findMed exReg "m1" = some exMed ∧
     (exMed.data.supply_tracking_enabled = true →
       (async_update_supply exReg "m1" 3).ok = true ∧
       findMed (async_update_supply exReg "m1" 3).medications "m1"
         = some { exMed with data := { exMed.data with current_supply := some 3 } })) :=
  ⟨⟨rfl, (c4_update_supply_precondition exReg "m2" 3 exMedOff rfl).1⟩,
   ⟨rfl, (c4_update_supply_precondition exReg "m1" 3 exMed rfl).2⟩⟩

/-- C5: every operation referencing an unknown id returns false and
leaves the registry completely unchanged. -/
theorem c5_unknown_id_is_noop (reg : Registry) (i : String)
    (taken_at skipped_at refill_date : Option Time) (amt v : Int)
    (d : MedicationData) (now : Time) (h : findMed reg i = none) :
    async_remove_medication reg i = ⟨false, reg, 0⟩ ∧
    async_update_medication reg i d now = ⟨false, reg, 0⟩ ∧
    async_take_medication reg i taken_at now = ⟨false, reg, 0⟩ ∧
    async_skip_medication reg i skipped_at now = ⟨false, reg, 0⟩ ∧
    async_refill_medication reg i amt refill_date now = ⟨false, reg, 0⟩ ∧
    async_update_supply reg i v = ⟨false, reg, 0⟩ := by
  refine ⟨?_, ?_, ?_, ?_, ?_, ?_⟩ <;>
    simp [async_remove_medication, async_update_medication, async_take_medication,
          async_skip_medication, async_refill_medication, async_update_supply, h]

/-- Witness for C5 at a concrete input: the id "ghost" is not in the
registry and every operation on it is a rejected no-op. -/
theorem c5_witness :
    findMed exReg "ghost" = none ∧
    (async_remove_medication exReg "ghost" = ⟨false, exReg, 0⟩ ∧
     async_update_medication exReg "ghost" exData 0 = ⟨false, exReg, 0⟩ ∧
     async_take_medication exReg "ghost" none 0 = ⟨false, exReg, 0⟩ ∧
     async_skip_medication exReg "ghost" none 0 = ⟨false, exReg, 0⟩ ∧
     async_refill_medication exReg "ghost" 5 none 0 = ⟨false, exReg, 0⟩ ∧
     async_update_supply exReg "ghost" 5 = ⟨false, exReg, 0⟩) :=
  ⟨rfl, c5_unknown_id_is_noop exReg "ghost" none none none 5 5 exData 0 rfl⟩

/-- C1: a low-supply notification is fired by `take_medication` /
`update_supply` exactly when `is_low_supply` transitioned from false
before the operation to true after it; while it stays true no further
notification is fired. -/
theorem c1_low_supply_edge_triggered (reg : Registry) (i : String)
    (taken_at : Option Time) (now : Time) (v : Int) (med medT medU : MedicationEntry)
    (h : findMed reg i = some med)
    (hT : findMed (async_take_medication reg i taken_at now).medications i = some medT)
    (hU : findMed (async_update_supply reg i v).medications i = some medU) :
    (async_take_medication reg i taken_at now).low_supply_events
      = (if !is_low_supply med && is_low_supply medT then 1 else 0) ∧
    (async_update_supply reg i v).low_supply_events
      = (if !is_low_supply med && is_low_supply medU then 1 else 0) := by
  constructor
  · by_cases hE : med.data.supply_tracking_enabled
    · have hred : async_take_medication reg i taken_at now
        = ⟨true, setMed reg i (decrement_supply (record_dose_taken (taken_at.getD now) med)),
            if !is_low_supply med
                && is_low_supply (decrement_supply (record_dose_taken (taken_at.getD now) med))
              then 1 else 0⟩ := by
        simp [async_take_medication, h, record_dose_taken_data, hE]
      rw [hred] at hT ⊢
      rw [findMed_setMed_self] at hT
      cases hT
      rfl
    · have hred : async_take_medication reg i taken_at now
        = ⟨true, setMed reg i (record_dose_taken (taken_at.getD now) med), 0⟩ := by
        simp [async_take_medication, h, record_dose_taken_data, hE]
      rw [hred] at hT ⊢
      rw [findMed_setMed_self] at hT
      cases hT
      have hlow : is_low_supply (record_dose_taken (taken_at.getD now) med) = false := by
        simp [is_low_supply, record_dose_taken_data, hE]
      simp [hlow]
  · by_cases hE : med.data.supply_tracking_enabled
    · have hred : async_update_supply reg i v
        = ⟨true, setMed reg i { med with data := { med.data with current_supply := some v } },
            if !is_low_supply med
                && is_low_supply { med with data := { med.data with current_supply := some v } }
              then 1 else 0⟩ := by
        simp [async_update_supply, h, hE]
      rw [hred] at hU ⊢
      rw [findMed_setMed_self] at hU
      cases hU
      rfl
    · have hred : async_update_supply reg i v = ⟨false, reg, 0⟩ := by
        simp [async_update_supply, h, hE]
      rw [hred] at hU ⊢
      rw [h] at hU
      cases hU
      cases hlow : is_low_supply med <;> simp [hlow]

/-- Witness for C1 at a concrete input: taking a dose at supply 8 with
threshold 7 crosses into low supply (one event); setting the supply to
3 from 8 also crosses (one event). -/
theorem c1_witness :
    findMed exReg "m1" = some exMed ∧
    findMed (async_take_medication exReg "m1" none 570).medications "m1"
      = some (decrement_supply (record_dose_taken 570 exMed)) ∧
    findMed (async_update_supply exReg "m1" 3).medications "m1"
      = some { exMed with data := { exMed.data with current_supply := some 3 } } ∧
    ((async_take_medication exReg "m1" none 570).low_supply_events
       = (if !is_low_supply exMed
             && is_low_supply (decrement_supply (record_dose_taken 570 exMed))
           then 1 else 0) ∧
     (async_update_supply exReg "m1" 3).low_supply_events
       = (if !is_low_supply exMed
             && is_low_supply { exMed with data := { exMed.data with current_supply := some 3 } }
           then 1 else 0)) :=
  ⟨by decide, by decide, by decide,
   c1_low_supply_edge_triggered exReg "m1" none 570 3 exMed
     (decrement_supply (record_dose_taken 570 exMed))
     { exMed with data := { exMed.data with current_supply := some 3 } }
     (by decide) (by decide) (by decide)⟩

/-- Non-negativity check of an optional registry entry's supply. -/
def supplyOk (o : Option MedicationEntry) : Bool :=
  match o with
  | some m =>
    match m.data.current_supply with
    | some c => decide (0 <= c)
    | none => false
  | none => false

/-- C3: for a tracked medication with a non-negative supply, taking a
dose (auto-decrement by pills_per_dose, for any pills_per_dose),
refilling by a schema-validated non-negative amount, and setting a
schema-validated non-negative supply all leave `current_supply` set and
non-negative. -/
theorem c3_supply_stays_nonneg (reg : Registry) (i : String)
    (taken_at refill_date : Option Time) (now : Time) (amt v : Int)
    (med : MedicationEntry) (c : Int)
    (h : findMed reg i = some med)
    (hen : med.data.supply_tracking_enabled = true)
    (hc : med.data.current_supply = some c) (hc0 : 0 <= c)
    (hamt : 0 <= amt) (hv : 0 <= v) :
    supplyOk (findMed (async_take_medication reg i taken_at now).medications i) = true ∧
    supplyOk (findMed (async_refill_medication reg i amt refill_date now).medications i) = true ∧
    supplyOk (findMed (async_update_supply reg i v).medications i) = true := by
  refine ⟨?_, ?_, ?_⟩
  · have hred : async_take_medication reg i taken_at now
      = ⟨true, setMed reg i (decrement_supply (record_dose_taken (taken_at.getD now) med)),
          if !is_low_supply med
              && is_low_supply (decrement_supply (record_dose_taken (taken_at.getD now) med))
            then 1 else 0⟩ := by
      simp [async_take_medication, h, record_dose_taken_data, hen]
    rw [hred]
    have hdec : (decrement_supply (record_dose_taken (taken_at.getD now) med)).data.current_supply
        = some (max 0 (c - med.data.pills_per_dose)) := by
      simp [decrement_supply, record_dose_taken_data, hen, hc]
    simp [findMed_setMed_self, supplyOk, hdec, le_max_left]
  · have hred : async_refill_medication reg i amt refill_date now
      = ⟨true, setMed reg i { med with data := { med.data with current_supply := some (c + amt), last_refill_date := some (refill_date.getD now) } }, 0⟩ := by
      simp [async_refill_medication, h, hen, hc]
    rw [hred]
    simp [findMed_setMed_self, supplyOk]
    positivity
  · have hred : async_update_supply reg i v
      = ⟨true, setMed reg i { med with data := { med.data with current_supply := some v } },
          if !is_low_supply med
              && is_low_supply { med with data := { med.data with current_supply := some v } }
            then 1 else 0⟩ := by
      simp [async_update_supply, h, hen]
    rw [hred]
    simp [findMed_setMed_self, supplyOk, hv]

/-- Witness for C3 at a concrete input: supply 8, decrement by 1,
refill by 30, set to 3 — all results stay non-negative. -/
theorem c3_witness :
    findMed exReg "m1" = some exMed ∧
    exMed.data.supply_tracking_enabled = true ∧
    exMed.data.current_supply = some 8 ∧ (0 : Int) <= 8 ∧
    (0 : Int) <= 30 ∧ (0 : Int) <= 3 ∧
    (supplyOk (findMed (async_take_medication exReg "m1" none 570).medications "m1") = true ∧
     supplyOk (findMed (async_refill_medication exReg "m1" 30 none 570).medications "m1") = true ∧
     supplyOk (findMed (async_update_supply exReg "m1" 3).medications "m1") = true) :=
  ⟨rfl, rfl, rfl, by decide, by decide, by decide,
   c3_supply_stays_nonneg exReg "m1" none none 570 30 3 exMed 8
     rfl rfl rfl (by decide) (by decide) (by decide)⟩

/-- C6: `add_medication` defaults an absent start date to the start of
the current local day (a present one is kept unchanged), stores a fresh
entry under the freshly generated id, returns that id, touches no other
entry, and grows the registry by one. -/
theorem c6_add_medication_defaults (reg : Registry) (fresh_id : String)
    (medication_data : MedicationData) (now : Time)
    (hfresh : findMed reg fresh_id = none) :
    (async_add_medication reg fresh_id medication_data now).1 = fresh_id ∧
    (medication_data.start_date = none →
      findMed (async_add_medication reg fresh_id medication_data now).2 fresh_id
        = some ⟨fresh_id, { medication_data with start_date := some (start_of_local_day now) },
            [], none, MedStatus.not_due⟩) ∧
    (∀ d0, medication_data.start_date = some d0 →
      findMed (async_add_medication reg fresh_id medication_data now).2 fresh_id
        = some ⟨fresh_id, medication_data, [], none, MedStatus.not_due⟩) ∧
    (∀ k, k ≠ fresh_id →
      findMed (async_add_medication reg fresh_id medication_data now).2 k = findMed reg k) ∧
    ((async_add_medication reg fresh_id medication_data now).2).length = reg.length + 1 := by
  refine ⟨?_, ?_, ?_, ?_, ?_⟩
  · cases hsd : medication_data.start_date <;> simp [async_add_medication, hsd]
  · intro hsd
    simp [async_add_medication, hsd, findMed_setMed_self]
  · intro d0 hsd
    simp [async_add_medication, hsd, findMed_setMed_self]
  · intro k hk
    cases hsd : medication_data.start_date <;>
      simp [async_add_medication, hsd, findMed_setMed_ne _ _ _ _ hk]
  · cases hsd : medication_data.start_date <;>
      simp [async_add_medication, hsd, setMed_length _ _ _ hfresh]

/-- Witness for C6 at a concrete input: adding a medication with no
start date at 09:30 of day 0 stores it with start date 00:00 of day 0
under the fresh id. -/
theorem c6_witness :
    findMed exReg "fresh" = none ∧
    ((async_add_medication exReg "fresh" { exData with start_date := none } 570).1 = "fresh" ∧
     (({ exData with start_date := none } : MedicationData).start_date = none →
       findMed (async_add_medication exReg "fresh" { exData with start_date := none } 570).2 "fresh"
         = some ⟨"fresh", { ({ exData with start_date := none } : MedicationData) with
             start_date := some (start_of_local_day 570) }, [], none, MedStatus.not_due⟩) ∧
     (∀ d0, ({ exData with start_date := none } : MedicationData).start_date = some d0 →
       findMed (async_add_medication exReg "fresh" { exData with start_date := none } 570).2 "fresh"
         = some ⟨"fresh", { exData with start_date := none }, [], none, MedStatus.not_due⟩) ∧
     (∀ k, k ≠ "fresh" →
       findMed (async_add_medication exReg "fresh" { exData with start_date := none } 570).2 k
         = findMed exReg k) ∧
     ((async_add_medication exReg "fresh" { exData with start_date := none } 570).2).length
       = exReg.length + 1) :=
  ⟨rfl, c6_add_medication_defaults exReg "fresh" { exData with start_date := none } 570 rfl⟩

/-- C7: for a registered id, `update_medication` replaces the data
wholesale, resets the cached schedule and reruns `update_status`
(so the stored entry's `next_due` is recomputed from the new data), and
returns true; the dose history is untouched. -/
theorem c7_update_replaces_and_recomputes (reg : Registry) (i : String)
    (medication_data : MedicationData) (now : Time) (med : MedicationEntry)
    (h : findMed reg i = some med) :
    (async_update_medication reg i medication_data now).ok = true ∧
    findMed (async_update_medication reg i medication_data now).medications i
      = some (update_status now (reset_schedule { med with data := medication_data })) ∧
    (update_status now (reset_schedule { med with data := medication_data })).data
      = medication_data ∧
    (update_status now (reset_schedule { med with data := medication_data })).next_due
      = compute_next_due medication_data now ∧
    (update_status now (reset_schedule { med with data := medication_data })).dose_history
      = med.dose_history :=
  ⟨by simp [async_update_medication, h],
   by simp [async_update_medication, h, findMed_setMed_self], rfl, rfl, rfl⟩

/-- Witness for C7 at a concrete input: updating "m1" with the
disabled-tracking data stores exactly the reset-and-restatused entry
and returns true. -/
theorem c7_witness :
    findMed exReg "m1" = some exMed ∧
    ((async_update_medication exReg "m1" { exData with supply_tracking_enabled := false } 570).ok
        = true ∧
     findMed (async_update_medication exReg "m1"
         { exData with supply_tracking_enabled := false } 570).medications "m1"
       = some (update_status 570 (reset_schedule
           { exMed with data := { exData with supply_tracking_enabled := false } })) ∧
     (update_status 570 (reset_schedule
         { exMed with data := { exData with supply_tracking_enabled := false } })).data
       = { exData with supply_tracking_enabled := false } ∧
     (update_status 570 (reset_schedule
         { exMed with data := { exData with supply_tracking_enabled := false } })).next_due
       = compute_next_due { exData with supply_tracking_enabled := false } 570 ∧
     (update_status 570 (reset_schedule
         { exMed with data := { exData with supply_tracking_enabled := false } })).dose_history
       = exMed.dose_history) :=
  ⟨rfl, c7_update_replaces_and_recomputes exReg "m1"
     { exData with supply_tracking_enabled := false } 570 exMed rfl⟩

/-- Folding appends of per-element event lists equals the flat map. -/
theorem foldl_append_eq_flatMap {α β : Type} (f : α → List β) (l : List α) :
    ∀ acc : List β, l.foldl (fun a x => a ++ f x) acc = acc ++ l.flatMap f := by
  induction l with
  | nil => intro acc; simp
  | cons x xs ih =>
    intro acc
    simp only [List.foldl_cons, List.flatMap_cons, ih (acc ++ f x), List.append_assoc]

/-- C8 counterexample: the claim as stated (dose events for records
whose timestamp lies in the queried range) is false — calendar.py
compares calendar dates, so a dose taken at 08:00 of day 0 is returned
for the range from 12:00 to 23:00 of day 0 even though its timestamp
lies strictly before the range start. -/
theorem c8_counterexample :
    ((async_get_events [("m1", { exMed with dose_history := [⟨480, true, none⟩] })]
        720 1380 0).map (fun ev => ev.start) = [480]) ∧ ¬ (720 <= (480 : Int)) :=
  ⟨by decide, by decide⟩

/-- C8 (amended): the calendar view returns, sorted ascending by start
time, exactly one event per dose record whose calendar date lies
between the range endpoints' calendar dates (inclusive) plus — per
medication with supply tracking and the calendar flag enabled and an
estimated refill date within those dates — exactly one synthetic refill
event on that date (the content is the concatenation over the registry
of `medicationEvents`, up to the sort's permutation). -/
theorem c8_calendar_events_sorted_and_complete (reg : Registry)
    (start_date end_date : Time) (today : Int) :
    List.Sorted startLE (async_get_events reg start_date end_date today) ∧
    List.Perm (async_get_events reg start_date end_date today)
      (reg.flatMap (medicationEvents start_date end_date today)) := by
  constructor
  · exact List.sorted_insertionSort startLE _
  · rw [async_get_events,
      foldl_append_eq_flatMap (medicationEvents start_date end_date today) reg []]
    simp only [List.nil_append]
    exact List.perm_insertionSort startLE _
